import Mathlib

/-!
Verification of the `slurm-sys` wrapper header (`src/slurm-sys/src/wrapper.h`).

The header does three things:
1. promotes the vendor macro `NO_VAL` (and, when defined, `NO_VAL64`) into
   members of two separate anonymous enumerations, named `SLURMRS_NO_VAL`
   and `SLURMRS_NO_VAL64`;
2. it keeps the two enumerations disjoint so the 64-bit member never widens
   the 32-bit one;
3. it declares, with external linkage, the vendor allocator entry points
   `slurm_try_xmalloc` and `slurm_xfree`.

We embed the header as a function of the vendor platform (the values of the
macros the vendor headers provide) into a small model of C enumeration
groups and C function declarations, and model the externally implemented
allocator from the specification's description of its behaviour.
-/

namespace SlurmSys

/-- The vendor platform as seen by the preprocessor when `wrapper.h` is
compiled: the value of the always-present 32-bit macro `NO_VAL`, and the
value of `NO_VAL64` when that macro is defined (`none` when it is not). -/
structure Vendor where
  NO_VAL : Nat
  NO_VAL64 : Option Nat

/-- A C enumeration group: an optional tag (both groups in `wrapper.h` are
anonymous, so their tag is `none`) and the list of member names paired with
their values. -/
structure EnumGroup where
  tag : Option String
  members : List (String × Nat)

/-- Whether a macro value fits in 32 bits of storage. -/
def fitsIn32 (n : Nat) : Bool := decide (n < 4294967296)

/-- Storage width, in bits, that a C compiler gives every member of one
enumeration group: 32 when every member value fits in 32 bits, otherwise
the whole group is widened to 64-bit storage.  This is the promotion rule
the header's comment guards against by using two separate enums. -/
def groupStorageBits (g : EnumGroup) : Nat :=
  if g.members.all (fun m => fitsIn32 m.2) then 32 else 64

/-- The enumeration groups that `wrapper.h` declares, as a function of the
vendor platform: one anonymous enum holding `SLURMRS_NO_VAL = NO_VAL`, and
— only under `#ifdef NO_VAL64` — a second anonymous enum holding
`SLURMRS_NO_VAL64 = NO_VAL64`. -/
def wrapperEnums (v : Vendor) : List EnumGroup :=
  { tag := none, members := [("SLURMRS_NO_VAL", v.NO_VAL)] } ::
  (match v.NO_VAL64 with
   | some n => [{ tag := none, members := [("SLURMRS_NO_VAL64", n)] }]
   | none => [])

/-- Look a constant up by name across a list of enumeration groups. -/
def findConst (gs : List EnumGroup) (name : String) : Option Nat :=
  match gs with
  | [] => none
  | g :: rest =>
    match g.members.find? (fun m => m.1 == name) with
    | some m => some m.2
    | none => findConst rest name

/-- The value of the constant that `wrapper.h` exports under `name` on the
platform `v`, or `none` when no constant of that name is exported. -/
def exportedConst (v : Vendor) (name : String) : Option Nat :=
  findConst (wrapperEnums v) name

/-- The observable storage width of the exported constant `name`: the
storage width of the enumeration group containing it. -/
def constWidth (v : Vendor) (name : String) : Option Nat :=
  match (wrapperEnums v).find? (fun g => g.members.any (fun m => m.1 == name)) with
  | some g => some (groupStorageBits g)
  | none => none

/-- All enumerator names the header introduces into the caller's
namespace. -/
def introducedEnumNames (v : Vendor) : List String :=
  (wrapperEnums v).flatMap (fun g => g.members.map Prod.fst)

/-- A sample platform matching scenario S1/S2 of the specification:
`NO_VAL = 0xFFFFFFFF` and `NO_VAL64 = 0xFFFFFFFFFFFFFFFE`. -/
def vendorSample : Vendor :=
  { NO_VAL := 4294967295, NO_VAL64 := some 18446744073709551614 }

/-- A sample platform predating the 64-bit sentinel (scenario S3):
`NO_VAL64` is not defined. -/
def vendorOld : Vendor :=
  { NO_VAL := 4294967295, NO_VAL64 := none }

end SlurmSys

namespace SlurmSys

/-- A fragment of the C type language sufficient for the two declarations
in `wrapper.h`. -/
inductive CType where
  | void
  | constChar
  | cInt
  | size_t
  | pointer : CType → CType
deriving DecidableEq

/-- Linkage of a declaration. -/
inductive Linkage where
  | external
  | internal
deriving DecidableEq

/-- A C function declaration: name, linkage, return type, and the ordered
parameter list of (name, type). -/
structure FunDecl where
  name : String
  linkage : Linkage
  ret : CType
  params : List (String × CType)
deriving DecidableEq

/-- The declaration `extern void *slurm_try_xmalloc(size_t size, const
char *file_name, int line, const char *func_name);` from `wrapper.h`. -/
def slurm_try_xmalloc_decl : FunDecl :=
  { name := "slurm_try_xmalloc"
    linkage := Linkage.external
    ret := CType.pointer CType.void
    params := [("size", CType.size_t),
               ("file_name", CType.pointer CType.constChar),
               ("line", CType.cInt),
               ("func_name", CType.pointer CType.constChar)] }

/-- The declaration `extern void slurm_xfree(void **pointer, const char
*file_name, int line, const char *func_name);` from `wrapper.h`. -/
def slurm_xfree_decl : FunDecl :=
  { name := "slurm_xfree"
    linkage := Linkage.external
    ret := CType.void
    params := [("pointer", CType.pointer (CType.pointer CType.void)),
               ("file_name", CType.pointer CType.constChar),
               ("line", CType.cInt),
               ("func_name", CType.pointer CType.constChar)] }

/-- All function declarations `wrapper.h` makes. -/
def wrapperFunDecls : List FunDecl :=
  [slurm_try_xmalloc_decl, slurm_xfree_decl]

/-- Modelled from the spec: the vendor ABI for the two allocator entry
points, built from the specification's words — try-allocate takes an
unsigned pointer-sized byte count plus a (file name, line number, function
name) diagnostic triple and returns an untyped address; free takes the
address of a pointer variable plus the same triple and returns nothing.
The vendor's shared object itself is not part of this repository. -/
def specVendorABI : List FunDecl :=
  [{ name := "slurm_try_xmalloc"
     linkage := Linkage.external
     ret := CType.pointer CType.void
     params := [("size", CType.size_t),
                ("file_name", CType.pointer CType.constChar),
                ("line", CType.cInt),
                ("func_name", CType.pointer CType.constChar)] },
   { name := "slurm_xfree"
     linkage := Linkage.external
     ret := CType.void
     params := [("pointer", CType.pointer (CType.pointer CType.void)),
                ("file_name", CType.pointer CType.constChar),
                ("line", CType.cInt),
                ("func_name", CType.pointer CType.constChar)] }]

/-- The set of integer values an integer-typed C parameter accepts, as a
decidable range check (LP64: `int` is 32-bit signed, `size_t` 64-bit
unsigned); non-integer types accept no integer argument directly. -/
def acceptsCValue : CType → Int → Bool
  | CType.cInt, x => decide (-2147483648 ≤ x ∧ x ≤ 2147483647)
  | CType.size_t, x => decide (0 ≤ x ∧ x ≤ 18446744073709551615)
  | _, _ => false

/-- Modelled from the spec: the state of the vendor allocator, which is not
part of this repository (the header only declares its entry points).  A
block is an address paired with its byte contents; `nextAddr` is a fresh
address source. -/
structure AllocState where
  blocks : List (Nat × List Nat)
  nextAddr : Nat

/-- Modelled from the spec: `slurm_try_xmalloc` returns an address of
freshly allocated, zero-initialized memory of the requested size, or a
null address (here `none`) on allocation failure.  Allocation failure is
the vendor's to decide, so it enters the model as the oracle `oom`.  The
diagnostic triple only feeds the vendor's allocation log and has no
observable effect. -/
def slurm_try_xmalloc (oom : Bool) (st : AllocState) (size : Nat)
    (file_name : String) (line : Int) (func_name : String) :
    Option Nat × AllocState :=
  if oom then (none, st)
  else
    (some st.nextAddr,
     { blocks := (st.nextAddr, List.replicate size 0) :: st.blocks
       nextAddr := st.nextAddr + size + 1 })

/-- Modelled from the spec: `slurm_xfree` takes (the contents of) a pointer
variable, releases the referenced memory — a no-op when the pointer is
null — and overwrites the pointer variable with null.  It returns the new
value of the pointer variable together with the new allocator state. -/
def slurm_xfree (st : AllocState) (p : Option Nat)
    (file_name : String) (line : Int) (func_name : String) :
    Option Nat × AllocState :=
  match p with
  | none => (none, st)
  | some a => (none, { st with blocks := st.blocks.filter (fun b => b.1 != a) })

/-- The byte contents of the block at address `a`, when one is
allocated. -/
def blockBytes (st : AllocState) (a : Nat) : Option (List Nat) :=
  (st.blocks.find? (fun b => b.1 == a)).map Prod.snd

end SlurmSys

namespace SlurmSys

/-- Claim C1: for every platform, the exported constant `SLURMRS_NO_VAL`
equals the vendor's `NO_VAL` macro value; in particular, when that value is
`0xFFFFFFFF` the exported constant reads as `4294967295`. -/
theorem no_val_value_fidelity (v : Vendor) :
    exportedConst v "SLURMRS_NO_VAL" = some v.NO_VAL ∧
    (v.NO_VAL = 4294967295 →
      exportedConst v "SLURMRS_NO_VAL" = some 4294967295) := by
  constructor
  · simp [exportedConst, findConst, wrapperEnums, List.find?]
  · intro h
    simp [exportedConst, findConst, wrapperEnums, List.find?, h]

/-- Witness for C1 at the concrete platform `vendorSample`, whose `NO_VAL`
is `0xFFFFFFFF`. -/
theorem no_val_value_fidelity_witness :
    exportedConst vendorSample "SLURMRS_NO_VAL" = some 4294967295 :=
  (no_val_value_fidelity vendorSample).2 rfl

/-- Claim C2: the 32-bit export has exactly 32-bit storage width and the
64-bit export, when present with a genuinely 64-bit value, has exactly
64-bit storage width, each independently of the other's presence; and the
two constants never share an enumeration group, so the wider never
promotes the narrower. -/
theorem width_fidelity (v : Vendor) (h32 : v.NO_VAL < 4294967296) :
    constWidth v "SLURMRS_NO_VAL" = some 32 ∧
    (∀ n, v.NO_VAL64 = some n → 4294967296 ≤ n →
      constWidth v "SLURMRS_NO_VAL64" = some 64) ∧
    (∀ g ∈ wrapperEnums v,
      ¬ (("SLURMRS_NO_VAL", v.NO_VAL) ∈ g.members ∧
         ∃ n, ("SLURMRS_NO_VAL64", n) ∈ g.members)) := by
  refine ⟨?_, ?_, ?_⟩
  · simp [constWidth, wrapperEnums, List.find?, List.any, groupStorageBits,
      fitsIn32, h32]
  · intro n hn h64
    have hfit : fitsIn32 n = false := by
      simp [fitsIn32]
      omega
    simp [constWidth, wrapperEnums, hn, List.find?, List.any, groupStorageBits,
      fitsIn32, hfit]
    omega
  · intro g hg
    rintro ⟨hmem32, n, hmem64⟩
    cases hv : v.NO_VAL64 with
    | none =>
      simp [wrapperEnums, hv] at hg
      subst hg
      simp at hmem64
    | some m =>
      simp [wrapperEnums, hv] at hg
      rcases hg with hg | hg <;> subst hg
      · simp at hmem64
      · simp at hmem32

/-- Witness for C2 at the concrete platform `vendorSample`. -/
theorem width_fidelity_witness :
    constWidth vendorSample "SLURMRS_NO_VAL" = some 32 ∧
    constWidth vendorSample "SLURMRS_NO_VAL64" = some 64 :=
  ⟨(width_fidelity vendorSample (by decide)).1,
   (width_fidelity vendorSample (by decide)).2.1
     18446744073709551614 rfl (by decide)⟩

/-- Claim C3: when the vendor does not define `NO_VAL64`, no 64-bit
constant is exported at all, while the 32-bit export keeps its value and
its 32-bit width; when the macro is defined, the 64-bit export equals
it. -/
theorem no_val64_conditional_presence (v : Vendor) :
    (v.NO_VAL64 = none →
      exportedConst v "SLURMRS_NO_VAL64" = none ∧
      constWidth v "SLURMRS_NO_VAL64" = none ∧
      exportedConst v "SLURMRS_NO_VAL" = some v.NO_VAL ∧
      (v.NO_VAL < 4294967296 → constWidth v "SLURMRS_NO_VAL" = some 32)) ∧
    (∀ n, v.NO_VAL64 = some n →
      exportedConst v "SLURMRS_NO_VAL64" = some n) := by
  constructor
  · intro h
    refine ⟨?_, ?_, ?_, ?_⟩
    · simp [exportedConst, findConst, wrapperEnums, h, List.find?]
    · simp [constWidth, wrapperEnums, h, List.find?, List.any]
    · simp [exportedConst, findConst, wrapperEnums, h, List.find?]
    · intro h32
      simp [constWidth, wrapperEnums, h, List.find?, List.any,
        groupStorageBits, fitsIn32, h32]
  · intro n hn
    simp [exportedConst, findConst, wrapperEnums, hn, List.find?]

/-- Witness for C3 at the concrete platform `vendorOld`, which predates
the 64-bit sentinel. -/
theorem no_val64_conditional_presence_witness :
    exportedConst vendorOld "SLURMRS_NO_VAL64" = none ∧
    exportedConst vendorOld "SLURMRS_NO_VAL" = some 4294967295 ∧
    constWidth vendorOld "SLURMRS_NO_VAL" = some 32 :=
  ⟨((no_val64_conditional_presence vendorOld).1 rfl).1,
   ((no_val64_conditional_presence vendorOld).1 rfl).2.2.1,
   ((no_val64_conditional_presence vendorOld).1 rfl).2.2.2 (by decide)⟩

/-- Counterexample to claim C4 as stated: on the concrete platform
`vendorSample` the shim exports no constant named `NO_VAL_32` and none
named `NO_VAL_64` — those are the specification's descriptive labels, not
the identifiers the header publishes. -/
theorem sentinel_names_counterexample :
    exportedConst vendorSample "NO_VAL_32" = none ∧
    exportedConst vendorSample "NO_VAL_64" = none ∧
    introducedEnumNames vendorSample =
      ["SLURMRS_NO_VAL", "SLURMRS_NO_VAL64"] := by
  decide

/-- Claim C4 amended: the shim publishes the always-present 32-bit
sentinel under the stable name `SLURMRS_NO_VAL` and the conditional 64-bit
sentinel under the stable name `SLURMRS_NO_VAL64`, each carrying the
corresponding vendor macro's value. -/
theorem sentinel_names_amended (v : Vendor) :
    exportedConst v "SLURMRS_NO_VAL" = some v.NO_VAL ∧
    (∀ n, v.NO_VAL64 = some n →
      exportedConst v "SLURMRS_NO_VAL64" = some n) := by
  constructor
  · simp [exportedConst, findConst, wrapperEnums, List.find?]
  · intro n hn
    simp [exportedConst, findConst, wrapperEnums, hn, List.find?]

/-- Witness for the amended C4 at the concrete platform `vendorSample`. -/
theorem sentinel_names_amended_witness :
    exportedConst vendorSample "SLURMRS_NO_VAL" = some 4294967295 ∧
    exportedConst vendorSample "SLURMRS_NO_VAL64" =
      some 18446744073709551614 :=
  ⟨(sentinel_names_amended vendorSample).1,
   (sentinel_names_amended vendorSample).2 18446744073709551614 rfl⟩

/-- Claim C5: for every non-zero byte count, `slurm_try_xmalloc` returns
either a null address or an address that, when the holding pointer
variable is passed to `slurm_xfree`, is released (no block at that address
remains) and the pointer variable is afterwards null. -/
theorem try_xmalloc_roundtrip (oom : Bool) (st : AllocState) (size : Nat)
    (f : String) (l : Int) (fn : String) (hsz : 0 < size) :
    (slurm_try_xmalloc oom st size f l fn).1 = none ∨
    ∃ a st2,
      (slurm_try_xmalloc oom st size f l fn).1 = some a ∧
      slurm_xfree (slurm_try_xmalloc oom st size f l fn).2 (some a) f l fn =
        (none, st2) ∧
      st2.blocks.all (fun b => b.1 != a) = true := by
  cases oom with
  | true => exact Or.inl rfl
  | false =>
    refine Or.inr ⟨st.nextAddr, _, rfl, rfl, ?_⟩
    apply List.all_eq_true.2
    intro b hb
    have hb2 : b ∈ List.filter (fun x => x.1 != st.nextAddr)
        (slurm_try_xmalloc false st size f l fn).2.blocks := hb
    exact (List.mem_filter.mp hb2).2

/-- Witness for C5: a concrete 16-byte allocation (scenario S4) from the
empty allocator state, with the diagnostic triple ("test.c", 1, "t"). -/
theorem try_xmalloc_roundtrip_witness :
    (slurm_try_xmalloc false ⟨[], 1⟩ 16 "test.c" 1 "t").1 = none ∨
    ∃ a st2,
      (slurm_try_xmalloc false ⟨[], 1⟩ 16 "test.c" 1 "t").1 = some a ∧
      slurm_xfree (slurm_try_xmalloc false ⟨[], 1⟩ 16 "test.c" 1 "t").2
        (some a) "test.c" 1 "t" = (none, st2) ∧
      st2.blocks.all (fun b => b.1 != a) = true :=
  try_xmalloc_roundtrip false ⟨[], 1⟩ 16 "test.c" 1 "t" (by decide)

/-- Claim C6: `slurm_xfree` on a null pointer variable is a no-op: it
returns normally, releases nothing (the allocator state is unchanged) and
the pointer variable stays null. -/
theorem xfree_null_noop (st : AllocState) (f : String) (l : Int)
    (fn : String) :
    slurm_xfree st none f l fn = (none, st) := rfl

/-- Claim C7: `slurm_try_xmalloc` reports failure exclusively by a null
return; on success it returns a fresh address (given that the allocator's
fresh-address source is unused) whose block holds at least the requested
number of bytes, all zero; and `slurm_xfree` is total, never failing
observably. -/
theorem try_xmalloc_zero_initialized (oom : Bool) (st : AllocState)
    (size : Nat) (f : String) (l : Int) (fn : String)
    (hfresh : st.blocks.all (fun b => b.1 != st.nextAddr) = true) :
    ((slurm_try_xmalloc oom st size f l fn).1 = none ↔ oom = true) ∧
    ((slurm_try_xmalloc oom st size f l fn).1 = none ∨
     ∃ a bs,
       (slurm_try_xmalloc oom st size f l fn).1 = some a ∧
       st.blocks.all (fun b => b.1 != a) = true ∧
       blockBytes (slurm_try_xmalloc oom st size f l fn).2 a = some bs ∧
       size ≤ bs.length ∧ bs.all (fun x => x == 0) = true) ∧
    (∀ p, ∃ st2, slurm_xfree st p f l fn = (none, st2)) := by
  refine ⟨?_, ?_, ?_⟩
  · cases oom <;> simp [slurm_try_xmalloc]
  · cases oom with
    | true => exact Or.inl rfl
    | false =>
      refine Or.inr ⟨st.nextAddr, List.replicate size 0, rfl, hfresh, ?_, ?_, ?_⟩
      · simp [slurm_try_xmalloc, blockBytes, List.find?]
      · simp
      · simp [List.all_eq_true, List.mem_replicate]
  · intro p
    cases p with
    | none => exact ⟨st, rfl⟩
    | some a => exact ⟨_, rfl⟩

/-- Witness for C7: the concrete 16-byte allocation of scenario S4 from
the empty allocator state. -/
theorem try_xmalloc_zero_initialized_witness :
    ((slurm_try_xmalloc false ⟨[], 1⟩ 16 "test.c" 1 "t").1 = none ↔
      false = true) ∧
    ((slurm_try_xmalloc false ⟨[], 1⟩ 16 "test.c" 1 "t").1 = none ∨
     ∃ a bs,
       (slurm_try_xmalloc false ⟨[], 1⟩ 16 "test.c" 1 "t").1 = some a ∧
       (AllocState.mk [] 1).blocks.all (fun b => b.1 != (AllocState.mk [] 1).nextAddr) = true ∧
       blockBytes (slurm_try_xmalloc false ⟨[], 1⟩ 16 "test.c" 1 "t").2 a =
         some bs ∧
       16 ≤ bs.length ∧ bs.all (fun x => x == 0) = true) ∧
    (∀ p, ∃ st2, slurm_xfree ⟨[], 1⟩ p "test.c" 1 "t" = (none, st2)) := by
  have h := try_xmalloc_zero_initialized false ⟨[], 1⟩ 16 "test.c" 1 "t"
    (by decide)
  refine ⟨h.1, ?_, h.2.2⟩
  rcases h.2.1 with h2 | ⟨a, bs, h2⟩
  · exact Or.inl h2
  · exact Or.inr ⟨a, bs, h2.1, by decide, h2.2.2⟩

/-- Claim C8: the header declares, with external linkage, exactly two
functions, and their names, parameter lists and return types coincide with
the vendor ABI as the specification describes it: `slurm_try_xmalloc`
takes a `size_t` byte count plus the (file name, line, function name)
diagnostic triple and returns `void *`; `slurm_xfree` takes a `void **`
plus the same triple and returns `void`. -/
theorem wrapper_decls_match_abi :
    wrapperFunDecls.length = 2 ∧
    wrapperFunDecls = specVendorABI ∧
    wrapperFunDecls.all (fun d => d.linkage == Linkage.external) = true ∧
    slurm_try_xmalloc_decl.name = "slurm_try_xmalloc" ∧
    slurm_try_xmalloc_decl.ret = CType.pointer CType.void ∧
    slurm_try_xmalloc_decl.params.map Prod.snd =
      [CType.size_t, CType.pointer CType.constChar, CType.cInt,
       CType.pointer CType.constChar] ∧
    slurm_xfree_decl.name = "slurm_xfree" ∧
    slurm_xfree_decl.ret = CType.void ∧
    slurm_xfree_decl.params.map Prod.snd =
      [CType.pointer (CType.pointer CType.void),
       CType.pointer CType.constChar, CType.cInt,
       CType.pointer CType.constChar] := by
  decide

/-- Claim C9 (implicit): in both declarations the diagnostic line-number
parameter has the signed `int` type while the size parameter is the
unsigned `size_t`, so the declared interface accepts negative line
numbers (for example −1) while the size type does not admit negatives. -/
theorem line_param_is_signed_int :
    slurm_try_xmalloc_decl.params.find? (fun p => p.1 == "line") =
      some ("line", CType.cInt) ∧
    slurm_xfree_decl.params.find? (fun p => p.1 == "line") =
      some ("line", CType.cInt) ∧
    slurm_try_xmalloc_decl.params.find? (fun p => p.1 == "size") =
      some ("size", CType.size_t) ∧
    acceptsCValue CType.cInt (-1) = true ∧
    acceptsCValue CType.size_t (-1) = false := by
  decide

/-- Claim C10 (implicit): both constant groups are anonymous (no tag
name), and beyond the two function declarations the header introduces
exactly the enumerator `SLURMRS_NO_VAL`, plus `SLURMRS_NO_VAL64` exactly
when `NO_VAL64` is defined, into the caller's namespace. -/
theorem anonymous_enum_surface (v : Vendor) :
    ((wrapperEnums v).all (fun g => g.tag.isNone) = true) ∧
    (v.NO_VAL64 = none → introducedEnumNames v = ["SLURMRS_NO_VAL"]) ∧
    (∀ n, v.NO_VAL64 = some n →
      introducedEnumNames v = ["SLURMRS_NO_VAL", "SLURMRS_NO_VAL64"]) ∧
    (wrapperFunDecls.map FunDecl.name = ["slurm_try_xmalloc", "slurm_xfree"]) := by
  refine ⟨?_, ?_, ?_, by decide⟩
  · cases hv : v.NO_VAL64 <;> simp [wrapperEnums, hv]
  · intro h
    simp [introducedEnumNames, wrapperEnums, h]
  · intro n hn
    simp [introducedEnumNames, wrapperEnums, hn]

/-- Witness for C10 at the concrete platforms `vendorSample` (64-bit
sentinel present) and `vendorOld` (absent). -/
theorem anonymous_enum_surface_witness :
    introducedEnumNames vendorOld = ["SLURMRS_NO_VAL"] ∧
    introducedEnumNames vendorSample =
      ["SLURMRS_NO_VAL", "SLURMRS_NO_VAL64"] :=
  ⟨(anonymous_enum_surface vendorOld).2.1 rfl,
   (anonymous_enum_surface vendorSample).2.2.1 18446744073709551614 rfl⟩

end SlurmSys
